import Mathlib

/-!
Verification of the Event Normalization & Dual-Surface Synchronization Engine.

Shallow embedding of the two engine instances of the repository:
`src/apps/base_app/main.ts` (namespace `BaseApp`) and the REST-API app
instance (namespace `RestApi`).  JavaScript strings are modelled as Lean
`String` (lists of characters, with explicit models of the string methods
the source uses); JavaScript numbers occurring as event codes and selection
indices are modelled as `Int`, with `NaN` modelled as `Option.none` where it
can arise (from `Number.parseInt`).  Absent / `undefined` / `null` payload
fields are modelled as `Option.none`, so the `??` coalescing operator of the
source becomes a first-`some` fold.  Asynchronous remote calls are modelled
by their observable protocol outcome (which render request is issued, how
the `startupRendered` flag changes, whether an exception escapes).
-/

namespace EvenDev

/-! ### Models of the JavaScript primitives used by the source -/

/-- Model of `s.toLowerCase()` (ASCII case mapping, as used by the source). -/
def jsToLower (s : String) : String := ⟨s.data.map Char.toLower⟩

/-- Model of `s.toUpperCase()` (ASCII case mapping, as used by the source). -/
def jsToUpper (s : String) : String := ⟨s.data.map Char.toUpper⟩

/-- Model of `s.startsWith(pat)`. -/
def jsStartsWith (s pat : String) : Bool := pat.data.isPrefixOf s.data

/-- Contiguous-sublist test: `listInfix pat l` holds when `pat` occurs as a
contiguous run inside `l`. -/
def listInfix (pat : List Char) : List Char → Bool
  | [] => pat.isEmpty
  | c :: cs => pat.isPrefixOf (c :: cs) || listInfix pat cs

/-- Model of `s.includes(pat)` (contiguous substring test). -/
def jsIncludes (s pat : String) : Bool := listInfix pat.data s.data

/-- Model of `s.trim()`. -/
def jsTrim (s : String) : String :=
  ⟨((s.data.dropWhile Char.isWhitespace).reverse.dropWhile Char.isWhitespace).reverse⟩

/-- Model of `Array.prototype.findIndex`: index of the first element
satisfying `p`, and `-1` when no element matches. -/
def jsFindIndex (p : α → Bool) : List α → Int
  | [] => -1
  | x :: xs =>
    if p x then 0
    else if jsFindIndex p xs < 0 then -1 else jsFindIndex p xs + 1

/-- Numeric value of a list of decimal digit characters. -/
def decDigitsVal (ds : List Char) : Nat :=
  ds.foldl (fun a c => a * 10 + (c.toNat - 48)) 0

/-- Model of `Number.parseInt(s, 10)`: optional leading whitespace, optional
sign, then the longest run of leading decimal digits; `none` models `NaN`
(no digits found). -/
def jsParseInt (s : String) : Option Int :=
  let core : Int → List Char → Option Int := fun sign cs =>
    let ds := cs.takeWhile Char.isDigit
    if ds.isEmpty then none else some (sign * (decDigitsVal ds : Int))
  match s.data.dropWhile Char.isWhitespace with
  | '-' :: rest => core (-1) rest
  | '+' :: rest => core 1 rest
  | cs => core 1 cs

/-- Model of the `??` nullish-coalescing operator over optional values. -/
def jsCoalesce (a : Option α) (b : Option α) : Option α :=
  match a with
  | some v => some v
  | none => b

/-! ### Data model: raw event payloads -/

/-- A raw JavaScript value as it can appear in an event payload field.
`undef` is the `undefined` value (the decoder's fallback result); `other`
stands for any further value type (object, boolean, ...). -/
inductive RawValue
  | num (n : Int)
  | str (s : String)
  | undef
  | other
  deriving DecidableEq

/-- Canonical event kinds: the members of `OsEventTypeList` from the hub SDK
that the source consumes. -/
inductive OsEventTypeList
  | clickEvent
  | doubleClickEvent
  | scrollTopEvent
  | scrollBottomEvent
  deriving DecidableEq

/-- The `listEvent` sub-object of an `EvenHubEvent`. -/
structure ListEventData where
  eventType : Option RawValue
  currentSelectItemIndex : Option RawValue
  currentSelectItemName : Option RawValue
  deriving DecidableEq

/-- A `textEvent` / `sysEvent` sub-object of an `EvenHubEvent`. -/
structure SubEventData where
  eventType : Option RawValue
  deriving DecidableEq

/-- The loosely-typed `jsonData` payload with its field-name variants. -/
structure JsonData where
  eventType : Option RawValue
  event_type : Option RawValue
  Event_Type : Option RawValue
  type : Option RawValue
  currentSelectItemIndex : Option RawValue
  current_select_item_index : Option RawValue
  currentSelectedIndex : Option RawValue
  current_selected_index : Option RawValue
  currentSelectItemName : Option RawValue
  current_select_item_name : Option RawValue
  currentSelectedName : Option RawValue
  current_selected_name : Option RawValue
  deriving DecidableEq

/-- An incoming bridge event (`EvenHubEvent`), all fields optional. -/
structure EvenHubEvent where
  listEvent : Option ListEventData
  textEvent : Option SubEventData
  sysEvent : Option SubEventData
  eventType : Option RawValue
  jsonData : Option JsonData
  deriving DecidableEq

/-- A `jsonData` object with no relevant fields (`{}`). -/
def emptyJsonData : JsonData :=
  ⟨none, none, none, none, none, none, none, none, none, none, none, none⟩

/-- Which remote bridge request a render path issues. -/
inductive RemoteCmd
  | createStartUpPage
  | rebuildPage
  | pageRender
  | textElementUpdate
  deriving DecidableEq

/-- Mode `SurfaceMode`: whether a live bridge handle is held (`bridge`) or all
remote operations are no-ops (`mock`). -/
inductive SurfaceMode
  | bridge
  | mock
  deriving DecidableEq

/-- Model of `withTimeout(promise, timeoutMs)`: if the promise settles within
the budget the race yields its value, otherwise the race rejects with the
timeout error message.  (Real time is abstracted into whether the underlying
promise resolves within the budget at all.) -/
def withTimeoutModel (timeoutMs : Nat) (resolvedWithinBudget : Option Unit) :
    Except String Unit :=
  match resolvedWithinBudget with
  | some u => Except.ok u
  | none => Except.error ("Operation timed out after " ++ toString timeoutMs ++ "ms")

namespace BaseApp

/-- Constant `THEME_OPTIONS` from `src/apps/base_app/main.ts`. -/
def THEME_OPTIONS : List String := ["Blue", "Green", "Orange"]

/-- State record `TemplateState`: the single authoritative application state. -/
structure TemplateState where
  counter : Int
  active : Bool
  selectedTheme : Int
  lastEvent : String
  deriving DecidableEq

/-- The initial `state` object of `main.ts`. -/
def initialState : TemplateState :=
  { counter := 0, active := false, selectedTheme := 0, lastEvent := "none" }

/-- Function `clampThemeIndex`: `Math.max(0, Math.min(THEME_OPTIONS.length - 1, index))`. -/
def clampThemeIndex (index : Int) : Int :=
  max 0 (min ((THEME_OPTIONS.length : Int) - 1) index)

/-- Function `getCurrentTheme`: `THEME_OPTIONS[clampThemeIndex(state.selectedTheme)]`. -/
def getCurrentTheme (s : TemplateState) : String :=
  THEME_OPTIONS.getD (clampThemeIndex s.selectedTheme).toNat ""

/-- Function `getEventTypeLabel` from `main.ts`. -/
def getEventTypeLabel (t : Option OsEventTypeList) : String :=
  match t with
  | some OsEventTypeList.clickEvent => "click"
  | some OsEventTypeList.doubleClickEvent => "double-click"
  | some OsEventTypeList.scrollTopEvent => "scroll-up"
  | some OsEventTypeList.scrollBottomEvent => "scroll-down"
  | none => "unknown"

/-- Decoder `getRawEventType` from `main.ts`: first non-absent value among the fixed
alias chain, `undefined` when every alias is absent. -/
def getRawEventType (e : EvenHubEvent) : RawValue :=
  let folded :=
    jsCoalesce (e.listEvent.bind (fun l => l.eventType))
      (jsCoalesce (e.textEvent.bind (fun t => t.eventType))
        (jsCoalesce (e.sysEvent.bind (fun t => t.eventType))
          (jsCoalesce e.eventType
            (jsCoalesce (e.jsonData.bind (fun r => r.eventType))
              (jsCoalesce (e.jsonData.bind (fun r => r.event_type))
                (jsCoalesce (e.jsonData.bind (fun r => r.Event_Type))
                  (e.jsonData.bind (fun r => r.type))))))))
  match folded with
  | some v => v
  | none => RawValue.undef

/-- Normalizer `normalizeEventType` from `main.ts`. -/
def normalizeEventType (rawEventType : RawValue) : Option OsEventTypeList :=
  match rawEventType with
  | RawValue.num n =>
    if n = 0 then some OsEventTypeList.clickEvent
    else if n = 1 then some OsEventTypeList.scrollTopEvent
    else if n = 2 then some OsEventTypeList.scrollBottomEvent
    else if n = 3 then some OsEventTypeList.doubleClickEvent
    else none
  | RawValue.str s =>
    let value := jsToUpper s
    if jsIncludes value "DOUBLE" then some OsEventTypeList.doubleClickEvent
    else if jsIncludes value "CLICK" then some OsEventTypeList.clickEvent
    else if jsIncludes value "SCROLL_TOP" || jsIncludes value "UP" then
      some OsEventTypeList.scrollTopEvent
    else if jsIncludes value "SCROLL_BOTTOM" || jsIncludes value "DOWN" then
      some OsEventTypeList.scrollBottomEvent
    else none
  | _ => none

/-- The inner `parseIndex` helper of `parseIncomingThemeIndex`: numbers pass
through, strings go through `Number.parseInt`, anything else is `-1`.
`none` models `NaN`. -/
def parseIndex (value : Option RawValue) : Option Int :=
  match value with
  | some (RawValue.num n) => some n
  | some (RawValue.str s) => jsParseInt s
  | _ => some (-1)

/-- The guard `Number.isFinite(parsed) && parsed >= 0 && parsed < len`
applied to a parsed index, keeping the index when it passes. -/
def pickIdx (p : Option Int) : Option Int :=
  match p with
  | some v =>
    if 0 ≤ v ∧ v < (THEME_OPTIONS.length : Int) then some v else none
  | none => none

/-- The inner `normalizeName` helper: `value.trim().toLowerCase()` for
strings, `''` otherwise. -/
def normalizeName (value : Option RawValue) : String :=
  match value with
  | some (RawValue.str s) => jsToLower (jsTrim s)
  | _ => ""

/-- The name-matching tail of `parseIncomingThemeIndex`: exact
case-insensitive match first, then `incomingName.startsWith(option
.toLowerCase())`, else `-1`. -/
def nameResolve (incomingName : String) : Int :=
  if incomingName ≠ "" then
    let byExactName := jsFindIndex (fun nm => jsToLower nm == incomingName) THEME_OPTIONS
    if 0 ≤ byExactName then byExactName
    else
      let byPfxName :=
        jsFindIndex (fun nm => jsStartsWith incomingName (jsToLower nm)) THEME_OPTIONS
      if 0 ≤ byPfxName then byPfxName else -1
  else -1

/-- Resolver `parseIncomingThemeIndex` from `main.ts` (the Selection Resolver). -/
def parseIncomingThemeIndex (e : EvenHubEvent) : Int :=
  let indexFromList := e.listEvent.bind (fun l => l.currentSelectItemIndex)
  let indexFromRaw :=
    jsCoalesce (e.jsonData.bind (fun r => r.currentSelectItemIndex))
      (jsCoalesce (e.jsonData.bind (fun r => r.current_select_item_index))
        (jsCoalesce (e.jsonData.bind (fun r => r.currentSelectedIndex))
          (e.jsonData.bind (fun r => r.current_selected_index))))
  let nameFromList := e.listEvent.bind (fun l => l.currentSelectItemName)
  let nameFromRaw :=
    jsCoalesce (e.jsonData.bind (fun r => r.currentSelectItemName))
      (jsCoalesce (e.jsonData.bind (fun r => r.current_select_item_name))
        (jsCoalesce (e.jsonData.bind (fun r => r.currentSelectedName))
          (e.jsonData.bind (fun r => r.current_selected_name))))
  match pickIdx (parseIndex indexFromList) with
  | some v => v
  | none =>
    match pickIdx (parseIndex indexFromRaw) with
    | some v => v
    | none =>
      let n1 := normalizeName nameFromList
      let incomingName := if n1 ≠ "" then n1 else normalizeName nameFromRaw
      nameResolve incomingName

/-- Reconciler `updateStateFromHubSelection` from `main.ts` (the State Reconciler),
as a pure state transformer. -/
def updateStateFromHubSelection (e : EvenHubEvent)
    (eventType : Option OsEventTypeList) (s : TemplateState) : TemplateState :=
  let incomingIndex := parseIncomingThemeIndex e
  if eventType = some OsEventTypeList.scrollTopEvent then
    { s with selectedTheme :=
        if 0 ≤ incomingIndex ∧ incomingIndex < (THEME_OPTIONS.length : Int) then
          clampThemeIndex incomingIndex
        else clampThemeIndex (s.selectedTheme - 1) }
  else if eventType = some OsEventTypeList.scrollBottomEvent then
    { s with selectedTheme :=
        if 0 ≤ incomingIndex ∧ incomingIndex < (THEME_OPTIONS.length : Int) then
          clampThemeIndex incomingIndex
        else clampThemeIndex (s.selectedTheme + 1) }
  else if eventType = some OsEventTypeList.clickEvent then
    -- Some simulator click events on the first row omit index/name.
    { s with selectedTheme :=
        if 0 ≤ incomingIndex ∧ incomingIndex < (THEME_OPTIONS.length : Int) then
          clampThemeIndex incomingIndex
        else 0 }
  else if eventType = none ∧ e.listEvent.isSome = true then
    -- Simulator fallback: list event can arrive with missing eventType/index.
    if 0 ≤ incomingIndex ∧ incomingIndex < (THEME_OPTIONS.length : Int) then
      { s with selectedTheme := clampThemeIndex incomingIndex }
    else
      { s with selectedTheme := 0, lastEvent := "glasses: list-fallback -> Blue" }
  else if 0 ≤ incomingIndex ∧ incomingIndex < (THEME_OPTIONS.length : Int) then
    { s with selectedTheme := clampThemeIndex incomingIndex }
  else s

/-- The `sdk.addEventListener` handler of `getBridgeTemplateClient`, as a
pure state transformer (logging and rendering side effects do not touch the
state and are dropped). -/
def handleHubEvent (e : EvenHubEvent) (s : TemplateState) : TemplateState :=
  let eventType := normalizeEventType (getRawEventType e)
  let s1 := updateStateFromHubSelection e eventType s
  let s2 :=
    match eventType with
    | some OsEventTypeList.clickEvent => { s1 with active := !s1.active }
    | some OsEventTypeList.doubleClickEvent => { s1 with counter := 0, active := false }
    | _ => s1
  { s2 with lastEvent := "glasses: " ++ getEventTypeLabel eventType }

/-- The fields of the browser panel written by `renderBrowserPanel`. -/
structure PanelView where
  counterValue : String
  stateValue : String
  themeValue : String
  lastEventValue : String
  barWidthPct : Int
  deriving DecidableEq

/-- Function `renderBrowserPanel`: the synchronous local render, as a pure function
from state to the displayed fields. -/
def renderBrowserPanel (s : TemplateState) : PanelView :=
  { counterValue := toString s.counter
    stateValue := if s.active then "active" else "idle"
    themeValue := getCurrentTheme s
    lastEventValue := s.lastEvent
    barWidthPct := max 0 (min 100 s.counter) }

/-- Observable outcome of one `syncToGlasses` call of the bridge client. -/
structure SyncOutcome where
  stateContent : String
  counterContent : String
  attemptedIncremental : Bool
  didFullRender : Bool
  startupRenderedAfter : Bool
  threw : Bool
  deriving DecidableEq

/-- The `syncToGlasses` closure of `getBridgeTemplateClient`, as a function
of the current state, the `startupRendered` flag, and the outcomes the
bridge reports (`renderOk`: whether `page.render()` succeeds; `stateUpdOk`,
`counterUpdOk`: the booleans returned by `updateWithEvenHubSdk`). -/
def syncToGlasses (s : TemplateState) (startupRendered : Bool)
    (renderOk stateUpdOk counterUpdOk : Bool) : SyncOutcome :=
  let stateContent :=
    "Base Template | State: " ++ (if s.active then "active" else "idle")
      ++ " | Theme: " ++ getCurrentTheme s
  let counterContent := "Counter: " ++ toString s.counter ++ " | Last: " ++ s.lastEvent
  if startupRendered = false then
    -- First render: full page construction; the flag is set only after the
    -- awaited render succeeds.
    if renderOk then
      { stateContent := stateContent, counterContent := counterContent,
        attemptedIncremental := false, didFullRender := true,
        startupRenderedAfter := true, threw := false }
    else
      { stateContent := stateContent, counterContent := counterContent,
        attemptedIncremental := false, didFullRender := true,
        startupRenderedAfter := false, threw := true }
  else
    -- Subsequent renders: per-element updates first, full rebuild when any
    -- element failed to update in place.
    if stateUpdOk && counterUpdOk then
      { stateContent := stateContent, counterContent := counterContent,
        attemptedIncremental := true, didFullRender := false,
        startupRenderedAfter := true, threw := false }
    else if renderOk then
      { stateContent := stateContent, counterContent := counterContent,
        attemptedIncremental := true, didFullRender := true,
        startupRenderedAfter := true, threw := false }
    else
      { stateContent := stateContent, counterContent := counterContent,
        attemptedIncremental := true, didFullRender := true,
        startupRenderedAfter := true, threw := true }

/-- A `TemplateClient` as far as connection state is observable: its mode and
the `startupRendered` flag captured by its `syncToGlasses` closure. -/
structure TemplateClient where
  mode : SurfaceMode
  startupRendered : Bool
  deriving DecidableEq

/-- Function `getMockTemplateClient` from `main.ts`. -/
def getMockTemplateClient : TemplateClient :=
  { mode := SurfaceMode.mock, startupRendered := false }

/-- Function `getBridgeTemplateClient` from `main.ts`: a fresh bridge client starts
with `startupRendered = false`. -/
def getBridgeTemplateClient : TemplateClient :=
  { mode := SurfaceMode.bridge, startupRendered := false }

/-- The mock client's `syncToGlasses`: a no-op, issuing no remote commands. -/
def mockSyncToGlasses (s : TemplateState) : List RemoteCmd :=
  match s with
  | _ => []

/-- The default `timeoutMs` argument of `initTemplate`. -/
def initTemplateDefaultTimeoutMs : Nat := 4000

/-- Detector `initTemplate` from `main.ts`: `acquired` is the settled outcome of
`withTimeout(EvenBetterSdk.getRawBridge(), timeoutMs)` and `cur` the current
`templateClient` singleton.  The `try`/`catch` turns every acquisition
failure into the mock client, so the function is total: no exception reaches
the caller. -/
def initTemplate (acquired : Except String Unit) (cur : Option TemplateClient) :
    TemplateClient :=
  match acquired with
  | Except.ok _ =>
    match cur with
    | some c => if c.mode = SurfaceMode.bridge then c else getBridgeTemplateClient
    | none => getBridgeTemplateClient
  | Except.error _ => getMockTemplateClient

end BaseApp

namespace RestApi

/-- Decoder `getRawEventType` from the REST-API instance: identical alias chain. -/
def getRawEventType (e : EvenHubEvent) : RawValue :=
  let folded :=
    jsCoalesce (e.listEvent.bind (fun l => l.eventType))
      (jsCoalesce (e.textEvent.bind (fun t => t.eventType))
        (jsCoalesce (e.sysEvent.bind (fun t => t.eventType))
          (jsCoalesce e.eventType
            (jsCoalesce (e.jsonData.bind (fun r => r.eventType))
              (jsCoalesce (e.jsonData.bind (fun r => r.event_type))
                (jsCoalesce (e.jsonData.bind (fun r => r.Event_Type))
                  (e.jsonData.bind (fun r => r.type))))))))
  match folded with
  | some v => v
  | none => RawValue.undef

/-- Normalizer `normalizeEventType` from the REST-API instance. -/
def normalizeEventType (rawEventType : RawValue) : Option OsEventTypeList :=
  match rawEventType with
  | RawValue.num n =>
    if n = 0 then some OsEventTypeList.clickEvent
    else if n = 1 then some OsEventTypeList.scrollTopEvent
    else if n = 2 then some OsEventTypeList.scrollBottomEvent
    else if n = 3 then some OsEventTypeList.doubleClickEvent
    else none
  | RawValue.str s =>
    let value := jsToUpper s
    if jsIncludes value "DOUBLE" then some OsEventTypeList.doubleClickEvent
    else if jsIncludes value "CLICK" then some OsEventTypeList.clickEvent
    else if jsIncludes value "SCROLL_TOP" || jsIncludes value "UP" then
      some OsEventTypeList.scrollTopEvent
    else if jsIncludes value "SCROLL_BOTTOM" || jsIncludes value "DOWN" then
      some OsEventTypeList.scrollBottomEvent
    else none
  | _ => none

/-- Function `clampIndex(index, length)` from the REST-API instance. -/
def clampIndex (index length : Int) : Int :=
  if length ≤ 0 then 0 else max 0 (min (length - 1) index)

/-- Function `toListLabel`: URLs longer than 62 characters are shortened to their
first 59 characters followed by `...`. -/
def toListLabel (url : String) : String :=
  if url.data.length ≤ 62 then url else ⟨url.data.take 59⟩ ++ "..."

/-- Which request `renderBridgePage` issues for a given `startupRendered`
flag, together with the flag's value afterwards. -/
def renderBridgePageStep (startupRendered : Bool) : RemoteCmd × Bool :=
  if startupRendered = false then (RemoteCmd.createStartUpPage, true)
  else (RemoteCmd.rebuildPage, startupRendered)

/-- The page configuration content `renderBridgePage` submits. -/
structure BridgePageConfig where
  itemNames : List String
  currentSelectedItem : Int
  statusMessage : String
  deriving DecidableEq

/-- The content part of `renderBridgePage`: empty URL lists are replaced by
a placeholder entry and the selected index is clamped to the safe list. -/
def renderBridgePageConfig (urls : List String) (selectedIndex : Int)
    (statusMessage : String) : BridgePageConfig :=
  let safeUrls := if urls.length > 0 then urls else ["No URL configured"]
  let safeSelected := clampIndex selectedIndex (safeUrls.length : Int)
  { itemNames := safeUrls.map toListLabel
    currentSelectedItem := safeSelected
    statusMessage := statusMessage }

/-- The branch dispatch at the end of the `onEvenHubEvent` handler in
`registerBridgeEvents`, computing the new `bridgeState.selectedIndex`.
The disjunct `eventType === undefined && event.listEvent` of the click
branch is subsumed here: after the synthesis step an undefined type with a
list payload has already become a scroll or click kind. -/
def applySelectionEvent (eventType : Option OsEventTypeList) (has : Bool)
    (inc sel len : Int) : Int :=
  match eventType with
  | some OsEventTypeList.scrollBottomEvent =>
    clampIndex (if has then inc else sel + 1) len
  | some OsEventTypeList.scrollTopEvent =>
    clampIndex (if has then inc else sel - 1) len
  | some OsEventTypeList.clickEvent =>
    if has then clampIndex inc len else sel
  | _ => sel

/-- The `onEvenHubEvent` handler of `registerBridgeEvents` as a pure
function from the event, the active URL list and the current
`bridgeState.selectedIndex` to the new selected index (rendering, logging
and the run callback do not change the selection further). -/
def bridgeHandleSelection (e : EvenHubEvent) (urls : List String) (sel : Int) : Int :=
  if urls.length = 0 then sel
  else
    let labels := urls.map toListLabel
    let incomingIndexRaw := e.listEvent.bind (fun l => l.currentSelectItemIndex)
    let incomingName := e.listEvent.bind (fun l => l.currentSelectItemName)
    let incomingIndexByName : Int :=
      match incomingName with
      | some (RawValue.str s) => jsFindIndex (fun l => l == s) labels
      | _ => -1
    let parsedIncomingIndex : Option Int :=
      match incomingIndexRaw with
      | some (RawValue.num n) => some n
      | some (RawValue.str s) => jsParseInt s
      | _ => some incomingIndexByName
    -- Some simulator list click events omit index/name for first row; treat
    -- as index 0.
    let incomingIndex : Option Int :=
      if e.listEvent.isSome = true ∧
          (parsedIncomingIndex = none ∨ parsedIncomingIndex.getD 0 < 0) then some 0
      else parsedIncomingIndex
    let has : Bool :=
      match incomingIndex with
      | some v => decide (0 ≤ v ∧ v < (urls.length : Int))
      | none => false
    let inc : Int := incomingIndex.getD 0
    let eventType : Option OsEventTypeList :=
      match normalizeEventType (getRawEventType e) with
      | some t => some t
      | none =>
        if e.listEvent.isSome = true then
          some
            (if has = true ∧ sel < inc then OsEventTypeList.scrollBottomEvent
             else if has = true ∧ inc < sel then OsEventTypeList.scrollTopEvent
             else OsEventTypeList.clickEvent)
        else none
    applySelectionEvent eventType has inc sel (urls.length : Int)

/-- Effect of `initBridgeDisplay` on `bridgeState.startupRendered`: the
`catch` path resets the flag, the success path leaves it unchanged. -/
def initBridgeStartupFlag (acquired : Except String Unit) (flag : Bool) : Bool :=
  match acquired with
  | Except.ok _ => flag
  | Except.error _ => false

/-- A `BridgeDisplay` as far as its remote effects are observable: the mode
plus the remote commands each operation issues. -/
structure BridgeDisplayM where
  mode : SurfaceMode
  showCmds : String → List RemoteCmd
  renderListCmds : List String → Int → List RemoteCmd

/-- Function `getMockBridgeDisplay`: both remote operations are no-ops. -/
def getMockBridgeDisplay : BridgeDisplayM :=
  { mode := SurfaceMode.mock
    showCmds := fun _ => []
    renderListCmds := fun _ _ => [] }

/-- Browser `select` element state: option labels plus `selectedIndex`
(`-1` sentinel when nothing is selected). -/
structure SelectState where
  options : List String
  selectedIndex : Int
  deriving DecidableEq

/-- Getter `select.value`: the value of the selected option, `''` when none. -/
def selectValue (st : SelectState) : String :=
  if 0 ≤ st.selectedIndex then st.options.getD st.selectedIndex.toNat "" else ""

/-- Function `ensureOption`: append the trimmed URL unless empty or already present. -/
def ensureOption (st : SelectState) (url : String) : SelectState :=
  let trimmed := jsTrim url
  if trimmed = "" then st
  else if trimmed ∈ st.options then st
  else { st with options := st.options ++ [trimmed] }

/-- Setter `select.value = v`: selects the first option equal to `v` (`-1` when no
option matches). -/
def setSelectValue (st : SelectState) (v : String) : SelectState :=
  { st with selectedIndex := jsFindIndex (fun o => o == v) st.options }

/-- The `addButton.onclick` handler restricted to the select state. -/
def addUrlClick (st : SelectState) (input : String) : SelectState :=
  let inputUrl := jsTrim input
  if inputUrl = "" then st
  else setSelectValue (ensureOption st inputUrl) inputUrl

/-- The `removeButton.onclick` handler restricted to the select state:
removes the selected option and moves the selection to
`Math.max(0, selectedIndex - 1)` when options remain (an empty select ends
at the DOM sentinel `-1`). -/
def removeUrlClick (st : SelectState) : SelectState :=
  let current := jsTrim (selectValue st)
  if current = "" then st
  else
    let idx := st.selectedIndex
    let opts := st.options.eraseIdx idx.toNat
    { options := opts
      selectedIndex := if 0 < opts.length then max 0 (idx - 1) else -1 }

end RestApi

/-! ### Concrete payloads used in the scenarios -/

/-- A list-payload event carrying no event type, no index and no name
(the simulator's first-row edge case). -/
def emptyListEvent : EvenHubEvent :=
  ⟨some ⟨none, none, none⟩, none, none, none, none⟩

/-- A list-payload event carrying only a selection name. -/
def nameOnlyEvent (nm : String) : EvenHubEvent :=
  ⟨some ⟨none, none, some (RawValue.str nm)⟩, none, none, none, none⟩

/-- An event whose only field is a numeric top-level event type. -/
def numTypeEvent (n : Int) : EvenHubEvent :=
  ⟨none, none, none, some (RawValue.num n), none⟩

/-- One remote render through the bridge template client assuming the bridge
reports success everywhere: the observable outcome and the client (with its
captured `startupRendered` flag) afterwards. -/
def BaseApp.renderOnce (s : BaseApp.TemplateState) (c : BaseApp.TemplateClient) :
    BaseApp.SyncOutcome × BaseApp.TemplateClient :=
  let r := BaseApp.syncToGlasses s c.startupRendered true true true
  (r, { c with startupRendered := r.startupRenderedAfter })

/-- Modelled from the spec: resolver clause (4) as the claim reads it — the
resolved incoming name is a case-insensitive prefix of an option's label,
first match by list order.  Stated from the spec's words for comparison
with `BaseApp.nameResolve`, which tests the reversed direction
(`incomingName.startsWith(option.toLowerCase())`). -/
def specResolveNameAsOptionStem (incomingName : String) : Int :=
  jsFindIndex (fun nm => jsStartsWith (jsToLower nm) incomingName) BaseApp.THEME_OPTIONS

/-! ### Helper lemmas -/

theorem jsFindIndex_neg_or_nonneg (p : α → Bool) (l : List α) :
    jsFindIndex p l = -1 ∨ 0 ≤ jsFindIndex p l := by
  cases l with
  | nil => exact Or.inl rfl
  | cons x xs =>
    simp only [jsFindIndex]
    split_ifs <;> omega

theorem jsFindIndex_append_self (l : List String) (a : String) (h : a ∉ l) :
    jsFindIndex (fun o => o == a) (l ++ [a]) = (l.length : Int) := by
  induction l with
  | nil => simp [jsFindIndex]
  | cons x xs ih =>
    have hxa : (x == a) = false := by
      refine beq_eq_false_iff_ne.mpr fun he => h ?_
      simp [he]
    have hmem : a ∉ xs := fun hm => h (List.mem_cons_of_mem _ hm)
    have hih := ih hmem
    simp only [List.cons_append, jsFindIndex, hxa, Bool.false_eq_true, if_false,
      List.append_eq, hih]
    have hnn : ¬((xs.length : Int) < 0) := by omega
    rw [if_neg hnn]
    push_cast [List.length_cons]
    omega

theorem getD_append_length (l : List String) (a : String) :
    (l ++ [a]).getD l.length "" = a := by
  induction l with
  | nil => rfl
  | cons x xs ih => simp only [List.cons_append, List.length_cons, List.getD_cons_succ]; exact ih

theorem eraseIdx_append_length (l : List String) (a : String) :
    (l ++ [a]).eraseIdx l.length = l := by
  induction l with
  | nil => rfl
  | cons x xs ih => simp [List.eraseIdx, ih]

theorem themeOptionsLen : (BaseApp.THEME_OPTIONS.length : Int) = 3 := rfl

theorem clampThemeIndex_in_range3 (i : Int) :
    0 ≤ BaseApp.clampThemeIndex i ∧ BaseApp.clampThemeIndex i < 3 := by
  unfold BaseApp.clampThemeIndex
  rw [themeOptionsLen]
  omega

theorem clampThemeIndex_in_range (i : Int) :
    0 ≤ BaseApp.clampThemeIndex i ∧
      BaseApp.clampThemeIndex i < (BaseApp.THEME_OPTIONS.length : Int) := by
  rw [themeOptionsLen]
  exact clampThemeIndex_in_range3 i

theorem clampIndex_in_range (i len : Int) (h : 0 < len) :
    0 ≤ RestApi.clampIndex i len ∧ RestApi.clampIndex i len < len := by
  unfold RestApi.clampIndex
  split_ifs <;> constructor <;> omega

theorem updateState_selectedTheme_in_range (e : EvenHubEvent)
    (et : Option OsEventTypeList) (s : BaseApp.TemplateState)
    (h0 : 0 ≤ s.selectedTheme)
    (h1 : s.selectedTheme < (BaseApp.THEME_OPTIONS.length : Int)) :
    0 ≤ (BaseApp.updateStateFromHubSelection e et s).selectedTheme ∧
      (BaseApp.updateStateFromHubSelection e et s).selectedTheme
        < (BaseApp.THEME_OPTIONS.length : Int) := by
  rw [themeOptionsLen] at h1 ⊢
  simp only [BaseApp.updateStateFromHubSelection]
  split_ifs <;> (try dsimp only) <;>
    first
      | exact clampThemeIndex_in_range3 _
      | omega

theorem applySelectionEvent_in_range (et : Option OsEventTypeList) (has : Bool)
    (inc sel len : Int) (hlen : 0 < len) (h0 : 0 ≤ sel) (h1 : sel < len) :
    0 ≤ RestApi.applySelectionEvent et has inc sel len ∧
      RestApi.applySelectionEvent et has inc sel len < len := by
  cases et with
  | none => exact ⟨h0, h1⟩
  | some t =>
    cases t <;> simp only [RestApi.applySelectionEvent] <;>
      first
        | exact clampIndex_in_range _ _ hlen
        | exact ⟨h0, h1⟩
        | (split_ifs <;> first
            | exact clampIndex_in_range _ _ hlen
            | exact ⟨h0, h1⟩)

theorem bridgeHandleSelection_in_range (e : EvenHubEvent) (urls : List String)
    (sel : Int) (hu : 0 < urls.length) (h0 : 0 ≤ sel)
    (h1 : sel < (urls.length : Int)) :
    0 ≤ RestApi.bridgeHandleSelection e urls sel ∧
      RestApi.bridgeHandleSelection e urls sel < (urls.length : Int) := by
  unfold RestApi.bridgeHandleSelection
  rw [if_neg (by omega)]
  exact applySelectionEvent_in_range _ _ _ _ _ (by exact_mod_cast hu) h0 h1

/-! ### Claim theorems -/

/-- Claim C10: the event decoder (`getRawEventType`) and the event
normalizer (`normalizeEventType`) implemented in the base_app instance and
in the REST-API instance are extensionally equal. -/
theorem decoder_normalizer_instances_agree :
    (∀ e : EvenHubEvent, BaseApp.getRawEventType e = RestApi.getRawEventType e)
    ∧ (∀ v : RawValue, BaseApp.normalizeEventType v = RestApi.normalizeEventType v) :=
  ⟨fun _ => rfl, fun _ => rfl⟩

/-- Claim C4: the event normalizer maps numbers by the fixed table 0→Click,
1→ScrollUp, 2→ScrollDown, 3→DoubleClick with every other number yielding
Unknown; strings are matched case-insensitively in the fixed order DOUBLE →
DoubleClick, then CLICK → Click, then SCROLL_TOP/UP → ScrollUp, then
SCROLL_BOTTOM/DOWN → ScrollDown, else Unknown; consequently every string
containing both "double" and "click" in any case normalizes to DoubleClick,
and inputs of any other type normalize to Unknown. -/
theorem normalizeEventType_table :
    (BaseApp.normalizeEventType (RawValue.num 0) = some OsEventTypeList.clickEvent
      ∧ BaseApp.normalizeEventType (RawValue.num 1) = some OsEventTypeList.scrollTopEvent
      ∧ BaseApp.normalizeEventType (RawValue.num 2) = some OsEventTypeList.scrollBottomEvent
      ∧ BaseApp.normalizeEventType (RawValue.num 3) = some OsEventTypeList.doubleClickEvent)
    ∧ (∀ n : Int, n ≠ 0 → n ≠ 1 → n ≠ 2 → n ≠ 3 →
        BaseApp.normalizeEventType (RawValue.num n) = none)
    ∧ (∀ s : String,
        (jsIncludes (jsToUpper s) "DOUBLE" = true →
          BaseApp.normalizeEventType (RawValue.str s) = some OsEventTypeList.doubleClickEvent)
        ∧ (jsIncludes (jsToUpper s) "DOUBLE" = false →
            jsIncludes (jsToUpper s) "CLICK" = true →
            BaseApp.normalizeEventType (RawValue.str s) = some OsEventTypeList.clickEvent)
        ∧ (jsIncludes (jsToUpper s) "DOUBLE" = false →
            jsIncludes (jsToUpper s) "CLICK" = false →
            (jsIncludes (jsToUpper s) "SCROLL_TOP" = true ∨ jsIncludes (jsToUpper s) "UP" = true) →
            BaseApp.normalizeEventType (RawValue.str s) = some OsEventTypeList.scrollTopEvent)
        ∧ (jsIncludes (jsToUpper s) "DOUBLE" = false →
            jsIncludes (jsToUpper s) "CLICK" = false →
            jsIncludes (jsToUpper s) "SCROLL_TOP" = false →
            jsIncludes (jsToUpper s) "UP" = false →
            (jsIncludes (jsToUpper s) "SCROLL_BOTTOM" = true
              ∨ jsIncludes (jsToUpper s) "DOWN" = true) →
            BaseApp.normalizeEventType (RawValue.str s) = some OsEventTypeList.scrollBottomEvent)
        ∧ (jsIncludes (jsToUpper s) "DOUBLE" = false →
            jsIncludes (jsToUpper s) "CLICK" = false →
            jsIncludes (jsToUpper s) "SCROLL_TOP" = false →
            jsIncludes (jsToUpper s) "UP" = false →
            jsIncludes (jsToUpper s) "SCROLL_BOTTOM" = false →
            jsIncludes (jsToUpper s) "DOWN" = false →
            BaseApp.normalizeEventType (RawValue.str s) = none))
    ∧ (∀ s : String, jsIncludes (jsToUpper s) "DOUBLE" = true →
        jsIncludes (jsToUpper s) "CLICK" = true →
        BaseApp.normalizeEventType (RawValue.str s) = some OsEventTypeList.doubleClickEvent)
    ∧ BaseApp.normalizeEventType RawValue.undef = none
    ∧ BaseApp.normalizeEventType RawValue.other = none := by
  refine ⟨⟨rfl, rfl, rfl, rfl⟩, ?_, ?_, ?_, rfl, rfl⟩
  · intro n h0 h1 h2 h3
    simp only [BaseApp.normalizeEventType, if_neg h0, if_neg h1, if_neg h2, if_neg h3]
  · intro s
    refine ⟨?_, ?_, ?_, ?_, ?_⟩
    · intro hd
      simp [BaseApp.normalizeEventType, hd]
    · intro hd hc
      simp [BaseApp.normalizeEventType, hd, hc]
    · intro hd hc hst
      rcases hst with h | h <;> simp [BaseApp.normalizeEventType, hd, hc, h]
    · intro hd hc h1 h2 hsb
      rcases hsb with h | h <;> simp [BaseApp.normalizeEventType, hd, hc, h1, h2, h]
    · intro hd hc h1 h2 h3 h4
      simp [BaseApp.normalizeEventType, hd, hc, h1, h2, h3, h4]
  · intro s hd _
    simp [BaseApp.normalizeEventType, hd]

/-- Claim C4 witness: the table theorem evaluated at concrete inputs. -/
theorem normalizeEventType_table_witness :
    BaseApp.normalizeEventType (RawValue.num 7) = none
    ∧ BaseApp.normalizeEventType (RawValue.str "os_Double_CLICK_event")
        = some OsEventTypeList.doubleClickEvent
    ∧ BaseApp.normalizeEventType (RawValue.str "tap_CLICK")
        = some OsEventTypeList.clickEvent :=
  ⟨normalizeEventType_table.2.1 7 (by decide) (by decide) (by decide) (by decide),
   normalizeEventType_table.2.2.2.1 "os_Double_CLICK_event" (by decide) (by decide),
   (normalizeEventType_table.2.2.1 "tap_CLICK").2.1 (by decide) (by decide)⟩

/-- Claim C5: for every option list of length L > 0, every proposed index is
clamped into [0, L-1] before use, the initial selection is in range, and
the selection index held in application state stays in [0, L-1] across any
resolver/apply step of either engine instance. -/
theorem selectionIndex_always_in_range :
    (∀ index len : Int, 0 < len →
      0 ≤ RestApi.clampIndex index len ∧ RestApi.clampIndex index len < len)
    ∧ (∀ index : Int, 0 ≤ BaseApp.clampThemeIndex index
        ∧ BaseApp.clampThemeIndex index < (BaseApp.THEME_OPTIONS.length : Int))
    ∧ (0 ≤ BaseApp.initialState.selectedTheme
        ∧ BaseApp.initialState.selectedTheme < (BaseApp.THEME_OPTIONS.length : Int))
    ∧ (∀ (e : EvenHubEvent) (et : Option OsEventTypeList) (s : BaseApp.TemplateState),
        0 ≤ s.selectedTheme → s.selectedTheme < (BaseApp.THEME_OPTIONS.length : Int) →
        0 ≤ (BaseApp.updateStateFromHubSelection e et s).selectedTheme
          ∧ (BaseApp.updateStateFromHubSelection e et s).selectedTheme
              < (BaseApp.THEME_OPTIONS.length : Int))
    ∧ (∀ (e : EvenHubEvent) (urls : List String) (sel : Int),
        0 < urls.length → 0 ≤ sel → sel < (urls.length : Int) →
        0 ≤ RestApi.bridgeHandleSelection e urls sel
          ∧ RestApi.bridgeHandleSelection e urls sel < (urls.length : Int)) :=
  ⟨fun i len h => clampIndex_in_range i len h,
   fun i => clampThemeIndex_in_range i,
   ⟨by decide, by decide⟩,
   fun e et s h0 h1 => updateState_selectedTheme_in_range e et s h0 h1,
   fun e urls sel hu h0 h1 => bridgeHandleSelection_in_range e urls sel hu h0 h1⟩

/-- Claim C5 witness: the invariant evaluated at concrete inputs. -/
theorem selectionIndex_always_in_range_witness :
    (0 ≤ RestApi.clampIndex 99 4 ∧ RestApi.clampIndex 99 4 < 4)
    ∧ (0 ≤ (BaseApp.updateStateFromHubSelection emptyListEvent none
          BaseApp.initialState).selectedTheme
        ∧ (BaseApp.updateStateFromHubSelection emptyListEvent none
            BaseApp.initialState).selectedTheme < (BaseApp.THEME_OPTIONS.length : Int))
    ∧ (0 ≤ RestApi.bridgeHandleSelection emptyListEvent ["a", "b"] 1
        ∧ RestApi.bridgeHandleSelection emptyListEvent ["a", "b"] 1
            < ((["a", "b"] : List String).length : Int)) :=
  ⟨selectionIndex_always_in_range.1 99 4 (by decide),
   selectionIndex_always_in_range.2.2.2.1 emptyListEvent none BaseApp.initialState
     (by decide) (by decide),
   selectionIndex_always_in_range.2.2.2.2 emptyListEvent ["a", "b"] 1
     (by decide) (by decide) (by decide)⟩

/-- Claim C7 counterexample: in the REST instance, a subsequent render
(flag already true) issues an unconditional full `rebuildPageContainer`
request and never a per-element update command, so "on every subsequent
render it first attempts incremental per-element updates" fails for that
cited renderer. -/
theorem rest_subsequent_render_is_unconditional_rebuild :
    RestApi.renderBridgePageStep true = (RemoteCmd.rebuildPage, true)
    ∧ RemoteCmd.rebuildPage ≠ RemoteCmd.textElementUpdate := by
  exact ⟨rfl, by decide⟩

/-- Claim C7 amended: while the flag is false a remote render performs a
full page construction (no incremental attempt) and sets the flag to true
exactly on success; once the flag is true, the base_app renderer attempts
the incremental per-element updates first and performs a full rebuild in
the same call iff some targeted element failed to update in place, while
the REST renderer performs an unconditional full rebuild with no
incremental attempt. -/
theorem render_update_or_rebuild_protocol (s : BaseApp.TemplateState)
    (renderOk stateUpdOk counterUpdOk : Bool) :
    ((BaseApp.syncToGlasses s false renderOk stateUpdOk counterUpdOk).didFullRender = true
      ∧ (BaseApp.syncToGlasses s false renderOk stateUpdOk counterUpdOk).attemptedIncremental
          = false
      ∧ (BaseApp.syncToGlasses s false renderOk stateUpdOk counterUpdOk).startupRenderedAfter
          = renderOk)
    ∧ ((BaseApp.syncToGlasses s true renderOk stateUpdOk counterUpdOk).attemptedIncremental
          = true
      ∧ ((BaseApp.syncToGlasses s true renderOk stateUpdOk counterUpdOk).didFullRender = true
          ↔ (stateUpdOk = false ∨ counterUpdOk = false))
      ∧ (BaseApp.syncToGlasses s true renderOk stateUpdOk counterUpdOk).startupRenderedAfter
          = true)
    ∧ (RestApi.renderBridgePageStep false = (RemoteCmd.createStartUpPage, true)
      ∧ RestApi.renderBridgePageStep true = (RemoteCmd.rebuildPage, true)) := by
  refine ⟨?_, ?_, rfl, rfl⟩ <;>
    cases renderOk <;> cases stateUpdOk <;> cases counterUpdOk <;>
      simp [BaseApp.syncToGlasses]

/-- Claim C8: a bridge acquisition that fails or does not settle within the
budget (default 4000 ms) yields the mock client through the `catch` path
instead of raising; in mock mode every remote render/show operation issues
no remote command, while the local render keeps producing the view of the
current state. -/
theorem mock_mode_on_unavailable_bridge (msg : String)
    (cur : Option BaseApp.TemplateClient) (s : BaseApp.TemplateState) (m : String)
    (urls : List String) (i : Int) :
    BaseApp.initTemplate (Except.error msg) cur = BaseApp.getMockTemplateClient
    ∧ BaseApp.getMockTemplateClient.mode = SurfaceMode.mock
    ∧ BaseApp.mockSyncToGlasses s = []
    ∧ RestApi.getMockBridgeDisplay.mode = SurfaceMode.mock
    ∧ RestApi.getMockBridgeDisplay.showCmds m = []
    ∧ RestApi.getMockBridgeDisplay.renderListCmds urls i = []
    ∧ BaseApp.initTemplateDefaultTimeoutMs = 4000
    ∧ withTimeoutModel BaseApp.initTemplateDefaultTimeoutMs none
        = Except.error "Operation timed out after 4000ms"
    ∧ (BaseApp.renderBrowserPanel s).themeValue = BaseApp.getCurrentTheme s
    ∧ (BaseApp.renderBrowserPanel s).counterValue = toString s.counter
    ∧ (BaseApp.renderBrowserPanel s).lastEventValue = s.lastEvent := by
  refine ⟨rfl, rfl, rfl, rfl, rfl, rfl, rfl, ?_, rfl, rfl, rfl⟩
  rfl

/-- Claim C1 counterexample: after a first successful connect and one
successful render, a second successful connect reuses the existing bridge
client, so `startupRendered` is still true and the first render after that
reconnect attempts an incremental update instead of a full construction. -/
theorem reconnect_keeps_render_flag :
    (BaseApp.initTemplate (Except.ok ())
        (some (BaseApp.renderOnce BaseApp.initialState
          (BaseApp.initTemplate (Except.ok ()) none)).2)).startupRendered = true
    ∧ (BaseApp.renderOnce BaseApp.initialState
        (BaseApp.initTemplate (Except.ok ())
          (some (BaseApp.renderOnce BaseApp.initialState
            (BaseApp.initTemplate (Except.ok ()) none)).2))).1.attemptedIncremental = true
    ∧ (BaseApp.renderOnce BaseApp.initialState
        (BaseApp.initTemplate (Except.ok ())
          (some (BaseApp.renderOnce BaseApp.initialState
            (BaseApp.initTemplate (Except.ok ()) none)).2))).1.didFullRender = false := by
  exact ⟨rfl, rfl, rfl⟩

/-- Claim C1 amended: a successful connect resets the render-cycle flag only
when it constructs a new bridge client (no bridge-mode client existed); an
existing bridge-mode client is reused with its flag preserved, so only then
does the next render attempt an incremental update first; the REST instance
resets the flag on a failed connect and keeps it on a successful one. -/
theorem connect_render_flag_characterization :
    (∀ c : BaseApp.TemplateClient,
      BaseApp.initTemplate (Except.ok ()) (some c)
        = if c.mode = SurfaceMode.bridge then c else BaseApp.getBridgeTemplateClient)
    ∧ BaseApp.initTemplate (Except.ok ()) none = BaseApp.getBridgeTemplateClient
    ∧ BaseApp.getBridgeTemplateClient.startupRendered = false
    ∧ (∀ s : BaseApp.TemplateState,
        (BaseApp.syncToGlasses s false true true true).didFullRender = true
        ∧ (BaseApp.syncToGlasses s false true true true).attemptedIncremental = false)
    ∧ (∀ (s : BaseApp.TemplateState) (u v : Bool),
        (BaseApp.syncToGlasses s true true u v).attemptedIncremental = true)
    ∧ (∀ flag : Bool, RestApi.initBridgeStartupFlag (Except.ok ()) flag = flag)
    ∧ (∀ (msg : String) (flag : Bool),
        RestApi.initBridgeStartupFlag (Except.error msg) flag = false) := by
  refine ⟨fun c => rfl, rfl, rfl, fun s => ⟨rfl, rfl⟩, fun s u v => ?_,
    fun flag => rfl, fun msg flag => rfl⟩
  cases u <;> cases v <;> rfl

/-- Claim C6: the State Reconciler's rules: on ScrollUp with a resolved
index it selects that clamped index, otherwise it decrements the current
selection clamped at 0; on ScrollDown symmetrically it increments clamped
at len-1; on Click with a resolved index it selects it, otherwise index 0;
with options ["Blue","Green","Orange"] at index 0, a ScrollDown with no
resolvable index moves the selection to index 1. -/
theorem reconciler_rules (e : EvenHubEvent) (s : BaseApp.TemplateState)
    (h0 : 0 ≤ s.selectedTheme)
    (h1 : s.selectedTheme < (BaseApp.THEME_OPTIONS.length : Int)) :
    ((0 ≤ BaseApp.parseIncomingThemeIndex e ∧
        BaseApp.parseIncomingThemeIndex e < (BaseApp.THEME_OPTIONS.length : Int)) →
      (BaseApp.updateStateFromHubSelection e (some OsEventTypeList.scrollTopEvent)
            s).selectedTheme
          = BaseApp.clampThemeIndex (BaseApp.parseIncomingThemeIndex e)
      ∧ (BaseApp.updateStateFromHubSelection e (some OsEventTypeList.scrollBottomEvent)
            s).selectedTheme
          = BaseApp.clampThemeIndex (BaseApp.parseIncomingThemeIndex e)
      ∧ (BaseApp.updateStateFromHubSelection e (some OsEventTypeList.clickEvent)
            s).selectedTheme
          = BaseApp.clampThemeIndex (BaseApp.parseIncomingThemeIndex e))
    ∧ (¬(0 ≤ BaseApp.parseIncomingThemeIndex e ∧
          BaseApp.parseIncomingThemeIndex e < (BaseApp.THEME_OPTIONS.length : Int)) →
      (BaseApp.updateStateFromHubSelection e (some OsEventTypeList.scrollTopEvent)
            s).selectedTheme
          = max 0 (s.selectedTheme - 1)
      ∧ (BaseApp.updateStateFromHubSelection e (some OsEventTypeList.scrollBottomEvent)
            s).selectedTheme
          = min ((BaseApp.THEME_OPTIONS.length : Int) - 1) (s.selectedTheme + 1)
      ∧ (BaseApp.updateStateFromHubSelection e (some OsEventTypeList.clickEvent)
            s).selectedTheme
          = 0)
    ∧ (BaseApp.handleHubEvent (numTypeEvent 2) BaseApp.initialState).selectedTheme = 1 := by
  have hTop : BaseApp.updateStateFromHubSelection e (some OsEventTypeList.scrollTopEvent) s
      = { s with selectedTheme :=
          if 0 ≤ BaseApp.parseIncomingThemeIndex e ∧
              BaseApp.parseIncomingThemeIndex e < (BaseApp.THEME_OPTIONS.length : Int) then
            BaseApp.clampThemeIndex (BaseApp.parseIncomingThemeIndex e)
          else BaseApp.clampThemeIndex (s.selectedTheme - 1) } := rfl
  have hBot : BaseApp.updateStateFromHubSelection e (some OsEventTypeList.scrollBottomEvent) s
      = { s with selectedTheme :=
          if 0 ≤ BaseApp.parseIncomingThemeIndex e ∧
              BaseApp.parseIncomingThemeIndex e < (BaseApp.THEME_OPTIONS.length : Int) then
            BaseApp.clampThemeIndex (BaseApp.parseIncomingThemeIndex e)
          else BaseApp.clampThemeIndex (s.selectedTheme + 1) } := rfl
  have hClick : BaseApp.updateStateFromHubSelection e (some OsEventTypeList.clickEvent) s
      = { s with selectedTheme :=
          if 0 ≤ BaseApp.parseIncomingThemeIndex e ∧
              BaseApp.parseIncomingThemeIndex e < (BaseApp.THEME_OPTIONS.length : Int) then
            BaseApp.clampThemeIndex (BaseApp.parseIncomingThemeIndex e)
          else 0 } := rfl
  rw [themeOptionsLen] at h1
  refine ⟨?_, ?_, by decide⟩
  · intro h
    refine ⟨?_, ?_, ?_⟩
    · rw [hTop]; dsimp only; rw [if_pos h]
    · rw [hBot]; dsimp only; rw [if_pos h]
    · rw [hClick]; dsimp only; rw [if_pos h]
  · intro h
    refine ⟨?_, ?_, ?_⟩
    · rw [hTop]; dsimp only; rw [if_neg h]
      unfold BaseApp.clampThemeIndex; rw [themeOptionsLen]; omega
    · rw [hBot]; dsimp only; rw [if_neg h]
      unfold BaseApp.clampThemeIndex; rw [themeOptionsLen]; omega
    · rw [hClick]; dsimp only; rw [if_neg h]

/-- Claim C6 witness: the rules evaluated at concrete inputs. -/
theorem reconciler_rules_witness :
    (BaseApp.updateStateFromHubSelection (nameOnlyEvent "green")
        (some OsEventTypeList.scrollTopEvent) BaseApp.initialState).selectedTheme
      = BaseApp.clampThemeIndex (BaseApp.parseIncomingThemeIndex (nameOnlyEvent "green"))
    ∧ (BaseApp.updateStateFromHubSelection emptyListEvent
        (some OsEventTypeList.scrollBottomEvent) BaseApp.initialState).selectedTheme
      = min ((BaseApp.THEME_OPTIONS.length : Int) - 1)
          (BaseApp.initialState.selectedTheme + 1) :=
  ⟨((reconciler_rules (nameOnlyEvent "green") BaseApp.initialState (by decide)
      (by decide)).1 (by decide)).1,
   ((reconciler_rules emptyListEvent BaseApp.initialState (by decide)
      (by decide)).2.1 (by decide)).2.1⟩

/-- Claim C2 counterexample: for the list-payload event with unresolvable
type and no index/name, the complete handler path ends with the selection
at 0 but with the last-event field holding the generic Unknown label — the
implicit-fallback diagnostic marker written by the reconciler step is
overwritten before the path completes. -/
theorem list_fallback_marker_overwritten :
    (BaseApp.handleHubEvent emptyListEvent BaseApp.initialState).selectedTheme = 0
    ∧ (BaseApp.updateStateFromHubSelection emptyListEvent none
        BaseApp.initialState).lastEvent = "glasses: list-fallback -> Blue"
    ∧ (BaseApp.handleHubEvent emptyListEvent BaseApp.initialState).lastEvent
        = "glasses: unknown"
    ∧ ("glasses: unknown" : String) ≠ "glasses: list-fallback -> Blue" := by
  refine ⟨by decide, by decide, by decide, by decide⟩

/-- Claim C2 amended: for every list-payload event whose type normalizes to
Unknown and with no resolvable index or name, the reconciler step records
the implicit-fallback marker, but the complete event-handling path ends
with selection index 0 and last-event "glasses: unknown" — still distinct
from the explicit-Click label. -/
theorem unknown_list_event_final_state (e : EvenHubEvent) (s : BaseApp.TemplateState)
    (hl : e.listEvent.isSome = true)
    (ht : BaseApp.normalizeEventType (BaseApp.getRawEventType e) = none)
    (hi : BaseApp.parseIncomingThemeIndex e = -1) :
    (BaseApp.handleHubEvent e s).selectedTheme = 0
    ∧ (BaseApp.handleHubEvent e s).lastEvent = "glasses: unknown"
    ∧ (BaseApp.updateStateFromHubSelection e none s).lastEvent
        = "glasses: list-fallback -> Blue"
    ∧ (BaseApp.handleHubEvent e s).lastEvent ≠ "glasses: click" := by
  have hupd : BaseApp.updateStateFromHubSelection e none s
      = { s with selectedTheme := 0, lastEvent := "glasses: list-fallback -> Blue" } := by
    simp [BaseApp.updateStateFromHubSelection, hl, hi]
  have hh : BaseApp.handleHubEvent e s
      = { s with selectedTheme := 0, lastEvent := "glasses: unknown" } := by
    unfold BaseApp.handleHubEvent
    rw [ht]
    dsimp only
    rw [hupd]
    rfl
  rw [hh, hupd]
  refine ⟨rfl, rfl, rfl, ?_⟩
  show ("glasses: unknown" : String) ≠ "glasses: click"
  decide

/-- Claim C2 witness: the amended statement at the concrete scenario-B
payload. -/
theorem unknown_list_event_final_state_witness :
    (BaseApp.handleHubEvent emptyListEvent BaseApp.initialState).selectedTheme = 0
    ∧ (BaseApp.handleHubEvent emptyListEvent BaseApp.initialState).lastEvent
        = "glasses: unknown"
    ∧ (BaseApp.updateStateFromHubSelection emptyListEvent none
        BaseApp.initialState).lastEvent = "glasses: list-fallback -> Blue"
    ∧ (BaseApp.handleHubEvent emptyListEvent BaseApp.initialState).lastEvent
        ≠ "glasses: click" :=
  unknown_list_event_final_state emptyListEvent BaseApp.initialState rfl
    (by decide) (by decide)

/-- Claim C3 counterexample: the name "bl" is a case-insensitive prefix of
the option "Blue" (the spec-worded clause resolves it to index 0), but the
Selection Resolver of the code returns the unresolved sentinel -1, because
the code tests the reversed direction. -/
theorem name_resolution_direction_counterexample :
    specResolveNameAsOptionStem "bl" = 0
    ∧ BaseApp.parseIncomingThemeIndex (nameOnlyEvent "bl") = -1
    ∧ ((-1 : Int) ≠ 0) := by
  refine ⟨by decide, by decide, by decide⟩

/-- Claim C3 amended: with no in-range explicit index, a selection name
resolves by exact case-insensitive match first, and otherwise to the first
option (by list order) whose label, lowercased, is a prefix of the resolved
incoming name (the reverse direction of the spec's clause); resolving
"orange" yields index 2. -/
theorem name_resolution_characterization :
    (∀ nm : String,
      BaseApp.parseIncomingThemeIndex (nameOnlyEvent nm) =
        (let n := jsToLower (jsTrim nm)
         if n = "" then -1
         else
           let byExact := jsFindIndex (fun o => jsToLower o == n) BaseApp.THEME_OPTIONS
           if 0 ≤ byExact then byExact
           else jsFindIndex (fun o => jsStartsWith n (jsToLower o)) BaseApp.THEME_OPTIONS))
    ∧ BaseApp.parseIncomingThemeIndex (nameOnlyEvent "orange") = 2 := by
  constructor
  · intro nm
    have hred : BaseApp.parseIncomingThemeIndex (nameOnlyEvent nm)
        = BaseApp.nameResolve
            (if jsToLower (jsTrim nm) ≠ "" then jsToLower (jsTrim nm) else "") := rfl
    rw [hred]
    by_cases hn : jsToLower (jsTrim nm) = ""
    · simp [BaseApp.nameResolve, hn]
    · rw [if_pos hn, if_neg hn]
      unfold BaseApp.nameResolve
      rw [if_pos hn]
      dsimp only
      by_cases he :
          0 ≤ jsFindIndex (fun o => jsToLower o == jsToLower (jsTrim nm))
            BaseApp.THEME_OPTIONS
      · simp only [if_pos he]
      · simp only [if_neg he]
        rcases jsFindIndex_neg_or_nonneg
            (fun o => jsStartsWith (jsToLower (jsTrim nm)) (jsToLower o))
            BaseApp.THEME_OPTIONS with hneg | hpos
        · rw [hneg]
          norm_num
        · rw [if_pos hpos]
  · decide

/-- Claim C9 counterexample: adding an already-present label is a no-op of
`ensureOption`, so the subsequent remove deletes the pre-existing option
and the prior option list is not restored. -/
theorem add_remove_duplicate_counterexample :
    (RestApi.removeUrlClick (RestApi.addUrlClick ⟨["a"], 0⟩ "a")).options
        = ([] : List String)
    ∧ ([] : List String) ≠ ["a"] := by
  refine ⟨by decide, by decide⟩

/-- Claim C9 amended: for every option list, adding a fresh option (trimmed,
nonempty, not already present) and then removing it restores the prior
option list with the same labels in the same order, and when the prior list
is nonempty it leaves the selection index at its last position, clamped to
the new list length. -/
theorem add_remove_round_trip (opts : List String) (selIdx : Int) (t : String)
    (htrim : jsTrim t = t) (hne : t ≠ "") (hmem : t ∉ opts) :
    (RestApi.removeUrlClick (RestApi.addUrlClick ⟨opts, selIdx⟩ t)).options = opts
    ∧ (opts ≠ [] →
        (RestApi.removeUrlClick (RestApi.addUrlClick ⟨opts, selIdx⟩ t)).selectedIndex
            = (opts.length : Int) - 1
        ∧ 0 ≤ (RestApi.removeUrlClick (RestApi.addUrlClick ⟨opts, selIdx⟩ t)).selectedIndex
        ∧ (RestApi.removeUrlClick (RestApi.addUrlClick ⟨opts, selIdx⟩ t)).selectedIndex
            < (opts.length : Int)) := by
  have hadd : RestApi.addUrlClick ⟨opts, selIdx⟩ t
      = ⟨opts ++ [t], (opts.length : Int)⟩ := by
    simp only [RestApi.addUrlClick, RestApi.ensureOption, RestApi.setSelectValue, htrim,
      if_neg hne, if_neg hmem]
    rw [jsFindIndex_append_self opts t hmem]
  have hval : RestApi.selectValue ⟨opts ++ [t], (opts.length : Int)⟩ = t := by
    unfold RestApi.selectValue
    rw [if_pos (by positivity)]
    simp only [Int.toNat_natCast]
    exact getD_append_length opts t
  have hrm : RestApi.removeUrlClick ⟨opts ++ [t], (opts.length : Int)⟩
      = ⟨opts, if 0 < opts.length then max 0 ((opts.length : Int) - 1) else -1⟩ := by
    unfold RestApi.removeUrlClick
    rw [hval, htrim, if_neg hne]
    simp only [Int.toNat_natCast, eraseIdx_append_length]
  rw [hadd, hrm]
  refine ⟨rfl, ?_⟩
  intro hnil
  have hlen : 0 < opts.length := List.length_pos.mpr hnil
  rw [if_pos hlen]
  dsimp only
  have hlen1 : (1 : Int) ≤ (opts.length : Int) := by exact_mod_cast hlen
  refine ⟨by omega, by omega, by omega⟩

/-- Claim C9 witness: the round trip at a concrete list and fresh label. -/
theorem add_remove_round_trip_witness :
    (RestApi.removeUrlClick (RestApi.addUrlClick ⟨["a", "b"], 0⟩ "c")).options
        = ["a", "b"]
    ∧ (RestApi.removeUrlClick (RestApi.addUrlClick ⟨["a", "b"], 0⟩ "c")).selectedIndex
        = ((["a", "b"] : List String).length : Int) - 1 := by
  have h := add_remove_round_trip ["a", "b"] 0 "c" (by decide) (by decide) (by decide)
  exact ⟨h.1, (h.2 (by decide)).1⟩

end EvenDev
